import Mathlib

/-!
Shallow embedding of `aws/resource_aws_ec2_transit_gateway_route_table.go`
from the terraform-provider-aws repository.

The four CRUD handlers are modelled as pure functions.  The remote AWS API
(the `ec2conn` client), the polling waits and the tag-update helper are
modelled as explicit oracle functions supplied in environment structures;
the framework-supplied attribute snapshot (`*schema.ResourceData`) is an
explicit record threaded through each handler.  Each handler returns the
final snapshot, the optional error (Go's `error` return, `none` = nil) and
the list of remote calls it issued, in order.
-/

namespace TGWRouteTable

/-- An AWS SDK error value (`awserr.Error`): an error code and a message. -/
structure AwsError where
  code : String
  message : String
deriving Repr, DecidableEq

/-- `needle` is an initial segment of the second character list. -/
def charsStartWith : List Char → List Char → Bool
  | [], _ => true
  | _ :: _, [] => false
  | a :: as, b :: bs => a == b && charsStartWith as bs

/-- Character-list version of `strings.Contains`: `needle` occurs
contiguously inside the list. -/
def charsContain (needle : List Char) : List Char → Bool
  | [] => needle.isEmpty
  | c :: rest => charsStartWith needle (c :: rest) || charsContain needle rest

/-- `strings.Contains haystack needle`. -/
def strContains (haystack needle : String) : Bool :=
  charsContain needle.data haystack.data

/-- Modelled from the spec: the provider's `isAWSErr(err, code, message)`
helper (defined elsewhere in the repository, not in the sources at hand)
implements "a remote error lookup by a fixed error-code string": it returns
true when the error's code equals `code` and its message contains
`message`.  All errors in this model are AWS errors, so the Go type
assertion always succeeds; a nil error is handled at each call site (the
match on the call result), where `isAWSErr` is only consulted on a non-nil
error, matching Go where `isAWSErr(nil, _, _)` is false. -/
def isAWSErr (e : AwsError) (code : String) (message : String) : Bool :=
  e.code == code && strContains e.message message

/-- `aws.StringValue`: dereference an optional string, nil becomes "". -/
def stringValue (s : Option String) : String := s.getD ""

/-- `aws.BoolValue`: dereference an optional boolean, nil becomes false. -/
def boolValue (b : Option Bool) : Bool := b.getD false

/-- `ec2.TransitGatewayRouteTableStateDeleting`. -/
def ec2TransitGatewayRouteTableStateDeleting : String := "deleting"

/-- `ec2.TransitGatewayRouteTableStateDeleted`. -/
def ec2TransitGatewayRouteTableStateDeleted : String := "deleted"

/-- `ec2.ServiceName`. -/
def ec2ServiceName : String := "ec2"

/-- The EC2 SDK descriptor `ec2.TransitGatewayRouteTable`; pointer fields
become `Option`, the SDK's `[]*ec2.Tag` becomes a key/value list. -/
structure TransitGatewayRouteTable where
  transitGatewayRouteTableId : Option String
  transitGatewayId : Option String
  state : Option String
  defaultAssociationRouteTable : Option Bool
  defaultPropagationRouteTable : Option Bool
  tags : List (String × String)
deriving Repr, DecidableEq

/-- The provider's ignore-tags configuration: tag keys and tag key
namespaces the user configured the provider to ignore. -/
structure IgnoreTagsConfig where
  keys : List String
  keyNamespaces : List String
deriving Repr, DecidableEq

/-- Modelled from the spec: the chain
`keyvaluetags.Ec2KeyValueTags(tags).IgnoreAws().IgnoreConfig(cfg).Map()`
lives in the repository's internal `keyvaluetags` package, which is not in
the sources at hand.  Per the spec it removes "any provider-reserved or
user-configured-to-ignore tag keys": provider-reserved keys are those in
the reserved `aws:` namespace, user-configured ones are the keys (and key
namespaces) of the ignore-tags configuration. -/
def ec2TagsIgnoreAwsIgnoreConfigMap (cfg : IgnoreTagsConfig)
    (tags : List (String × String)) : List (String × String) :=
  tags.filter fun kv =>
    !(charsStartWith "aws:".data kv.1.data
      || cfg.keys.contains kv.1
      || cfg.keyNamespaces.any fun ns => charsStartWith ns.data kv.1.data)

/-- Modelled from the spec: `ec2TagSpecificationsFromMap(tags, resourceType)`
(defined elsewhere in the repository, not in the sources at hand) converts
the flat tag mapping into the creation request's tag specification; per the
spec the creation request is simply "tagged with the initial tag mapping",
so the model carries the mapping through unchanged. -/
def ec2TagSpecificationsFromMap (tags : List (String × String)) :
    List (String × String) := tags

/-- `arn.ARN{...}.String()` from the AWS SDK: the colon-joined locator
`arn:partition:service:region:accountID:resource`. -/
def arnToString (partition service region accountID resource : String) : String :=
  "arn:" ++ partition ++ ":" ++ service ++ ":" ++ region ++ ":"
    ++ accountID ++ ":" ++ resource

/-- The framework's attribute snapshot (`*schema.ResourceData`) for this
resource: the identifier plus the five schema attributes.  `tags` is the
new (current) snapshot value returned by `d.Get("tags")`; `tagsOld` is the
old snapshot value the framework supplies, so `d.HasChange("tags")` is
`tagsOld ≠ tags` and `d.GetChange("tags")` is `(tagsOld, tags)`. -/
structure ResourceData where
  id : String
  arn : String
  default_association_route_table : Bool
  default_propagation_route_table : Bool
  tags : List (String × String)
  tagsOld : List (String × String)
  transit_gateway_id : String
deriving Repr, DecidableEq

/-- A remote interaction issued by a handler. -/
inductive RemoteCall where
  | createTGWRouteTable (transitGatewayId : String) (tagSpecifications : List (String × String))
  | describeTGWRouteTable (id : String)
  | deleteTGWRouteTable (id : String)
  | updateTags (id : String) (oldTags newTags : List (String × String))
  | waitCreation (id : String)
  | waitDeletion (id : String)
deriving Repr, DecidableEq

/-- Result of one handler invocation: final snapshot, Go error return
(`none` = nil), and the remote calls issued, in order. -/
structure OpResult where
  d : ResourceData
  err : Option String
  calls : List RemoteCall
deriving Repr, DecidableEq

/-- The slice of `*AWSClient` the Read handler uses: the describe call
(`ec2DescribeTransitGatewayRouteTable`, an oracle returning the descriptor,
nil, or an error), the ignore-tags configuration, and the partition,
region and account identifiers. -/
structure AWSClient where
  describeTransitGatewayRouteTable : String → Except AwsError (Option TransitGatewayRouteTable)
  ignoreTagsConfig : IgnoreTagsConfig
  partition : String
  region : String
  accountid : String

/-- `ec2.CreateTransitGatewayRouteTableInput`. -/
structure CreateTransitGatewayRouteTableInput where
  transitGatewayId : String
  tagSpecifications : List (String × String)
deriving Repr, DecidableEq

/-- `ec2.CreateTransitGatewayRouteTableOutput`. -/
structure CreateTransitGatewayRouteTableOutput where
  transitGatewayRouteTable : TransitGatewayRouteTable
deriving Repr, DecidableEq

/-- Environment for the Create handler: the client (Create delegates to
Read on success), the remote creation call, and the post-create
poll-until-ready wait (`waitForEc2TransitGatewayRouteTableCreation`,
returning the wait error or nil). -/
structure CreateEnv where
  client : AWSClient
  createTransitGatewayRouteTable :
    CreateTransitGatewayRouteTableInput → Except AwsError CreateTransitGatewayRouteTableOutput
  waitForCreation : String → Option String

/-- Environment for the Update handler: `keyvaluetags.Ec2UpdateTags`,
taking the identifier and the old and new tag mappings. -/
structure UpdateEnv where
  ec2UpdateTags : String → List (String × String) → List (String × String) → Option AwsError

/-- Environment for the Delete handler: the remote deletion call (only its
error return matters) and the post-delete poll-until-absent wait
(`waitForEc2TransitGatewayRouteTableDeletion`). -/
structure DeleteEnv where
  deleteTransitGatewayRouteTable : String → Option AwsError
  waitForDeletion : String → Option String

/-- `resourceAwsEc2TransitGatewayRouteTableRead`: describe the remote
route table; on a not-found error code, a nil descriptor, or a descriptor
in the deleting/deleted state, clear the identifier and return nil;
on any other error, wrap and return it; otherwise set the two boolean
flags, the filtered tag mapping, the transit gateway reference and the
ARN. -/
def resourceAwsEc2TransitGatewayRouteTableRead (meta : AWSClient)
    (d : ResourceData) : OpResult :=
  match meta.describeTransitGatewayRouteTable d.id with
  | Except.error e =>
    if isAWSErr e "InvalidRouteTableID.NotFound" "" then
      ⟨{ d with id := "" }, none, [RemoteCall.describeTGWRouteTable d.id]⟩
    else
      ⟨d, some ("error reading EC2 Transit Gateway Route Table: " ++ e.message),
        [RemoteCall.describeTGWRouteTable d.id]⟩
  | Except.ok none =>
    ⟨{ d with id := "" }, none, [RemoteCall.describeTGWRouteTable d.id]⟩
  | Except.ok (some rt) =>
    if stringValue rt.state = ec2TransitGatewayRouteTableStateDeleting
        ∨ stringValue rt.state = ec2TransitGatewayRouteTableStateDeleted then
      ⟨{ d with id := "" }, none, [RemoteCall.describeTGWRouteTable d.id]⟩
    else
      ⟨{ d with
          default_association_route_table := boolValue rt.defaultAssociationRouteTable,
          default_propagation_route_table := boolValue rt.defaultPropagationRouteTable,
          tags := ec2TagsIgnoreAwsIgnoreConfigMap meta.ignoreTagsConfig rt.tags,
          transit_gateway_id := stringValue rt.transitGatewayId,
          arn := arnToString meta.partition ec2ServiceName meta.region meta.accountid
                   ("transit-gateway-route-table/" ++ d.id) },
        none, [RemoteCall.describeTGWRouteTable d.id]⟩

/-- `resourceAwsEc2TransitGatewayRouteTableCreate`: build the creation
input from the snapshot, call the remote creation; on error wrap and
return with the snapshot untouched; on success record the remote-assigned
identifier, run the poll-until-ready wait (wrapping its error, identifier
kept), then delegate to Read. -/
def resourceAwsEc2TransitGatewayRouteTableCreate (env : CreateEnv)
    (d : ResourceData) : OpResult :=
  match env.createTransitGatewayRouteTable
      ⟨d.transit_gateway_id, ec2TagSpecificationsFromMap d.tags⟩ with
  | Except.error e =>
    ⟨d, some ("error creating EC2 Transit Gateway Route Table: " ++ e.message),
      [RemoteCall.createTGWRouteTable d.transit_gateway_id (ec2TagSpecificationsFromMap d.tags)]⟩
  | Except.ok output =>
    match env.waitForCreation
        (stringValue output.transitGatewayRouteTable.transitGatewayRouteTableId) with
    | some werr =>
      ⟨{ d with id := stringValue output.transitGatewayRouteTable.transitGatewayRouteTableId },
        some ("error waiting for EC2 Transit Gateway Route Table ("
          ++ stringValue output.transitGatewayRouteTable.transitGatewayRouteTableId
          ++ ") availability: " ++ werr),
        [RemoteCall.createTGWRouteTable d.transit_gateway_id (ec2TagSpecificationsFromMap d.tags),
         RemoteCall.waitCreation (stringValue output.transitGatewayRouteTable.transitGatewayRouteTableId)]⟩
    | none =>
      let r := resourceAwsEc2TransitGatewayRouteTableRead env.client
        { d with id := stringValue output.transitGatewayRouteTable.transitGatewayRouteTableId }
      ⟨r.d, r.err,
        [RemoteCall.createTGWRouteTable d.transit_gateway_id (ec2TagSpecificationsFromMap d.tags),
         RemoteCall.waitCreation (stringValue output.transitGatewayRouteTable.transitGatewayRouteTableId)]
        ++ r.calls⟩

/-- `resourceAwsEc2TransitGatewayRouteTableUpdate`: if the tags attribute
changed between the old and new snapshots, call the remote tag update,
wrapping any error; otherwise do nothing.  The snapshot is never written. -/
def resourceAwsEc2TransitGatewayRouteTableUpdate (env : UpdateEnv)
    (d : ResourceData) : OpResult :=
  if d.tagsOld ≠ d.tags then
    match env.ec2UpdateTags d.id d.tagsOld d.tags with
    | some e =>
      ⟨d, some ("error updating EC2 Transit Gateway Route Table (" ++ d.id
          ++ ") tags: " ++ e.message),
        [RemoteCall.updateTags d.id d.tagsOld d.tags]⟩
    | none => ⟨d, none, [RemoteCall.updateTags d.id d.tagsOld d.tags]⟩
  else ⟨d, none, []⟩

/-- `resourceAwsEc2TransitGatewayRouteTableDelete`: call the remote
deletion; a not-found error code is success; any other error is wrapped;
on a nil error run the poll-until-absent wait, wrapping its error. -/
def resourceAwsEc2TransitGatewayRouteTableDelete (env : DeleteEnv)
    (d : ResourceData) : OpResult :=
  match env.deleteTransitGatewayRouteTable d.id with
  | some e =>
    if isAWSErr e "InvalidRouteTableID.NotFound" "" then
      ⟨d, none, [RemoteCall.deleteTGWRouteTable d.id]⟩
    else
      ⟨d, some ("error deleting EC2 Transit Gateway Route Table: " ++ e.message),
        [RemoteCall.deleteTGWRouteTable d.id]⟩
  | none =>
    match env.waitForDeletion d.id with
    | some werr =>
      ⟨d, some ("error waiting for EC2 Transit Gateway Route Table (" ++ d.id
          ++ ") deletion: " ++ werr),
        [RemoteCall.deleteTGWRouteTable d.id, RemoteCall.waitDeletion d.id]⟩
    | none =>
      ⟨d, none, [RemoteCall.deleteTGWRouteTable d.id, RemoteCall.waitDeletion d.id]⟩

/-! Concrete instances used to exercise the handlers on closed inputs. -/

/-- A sample tag mapping. -/
def tagsEx : List (String × String) := [("env", "prod")]

/-- A snapshot holding an already-recorded identifier. -/
def dEx : ResourceData :=
  ⟨"tgw-rtb-abc", "", false, false, tagsEx, tagsEx, "tgw-123"⟩

/-- A pre-creation snapshot: empty identifier, tags configured, old tag
snapshot empty. -/
def dEmpty : ResourceData :=
  ⟨"", "", false, false, tagsEx, [], "tgw-123"⟩

/-- A descriptor for an available route table. -/
def rtEx : TransitGatewayRouteTable :=
  ⟨some "tgw-rtb-abc", some "tgw-123", some "available", some false, some false, tagsEx⟩

/-- The not-found error the EC2 API reports for this resource type. -/
def awsErrNotFound : AwsError := ⟨"InvalidRouteTableID.NotFound", "route table not found"⟩

/-- Some other remote error. -/
def awsErrOther : AwsError := ⟨"InternalError", "boom"⟩

/-- An empty ignore-tags configuration. -/
def cfgEx : IgnoreTagsConfig := ⟨[], []⟩

/-- A client whose describe call reports not-found. -/
def clientNotFound : AWSClient :=
  ⟨fun _ => Except.error awsErrNotFound, cfgEx, "aws", "us-east-1", "123456789012"⟩

/-- A client whose describe call fails with a non-not-found error. -/
def clientErr : AWSClient :=
  ⟨fun _ => Except.error awsErrOther, cfgEx, "aws", "us-east-1", "123456789012"⟩

/-- A client whose describe call returns a nil descriptor. -/
def clientNil : AWSClient :=
  ⟨fun _ => Except.ok none, cfgEx, "aws", "us-east-1", "123456789012"⟩

/-- A client whose describe call finds the available descriptor. -/
def clientFound : AWSClient :=
  ⟨fun _ => Except.ok (some rtEx), cfgEx, "aws", "us-east-1", "123456789012"⟩

/-- The creation response naming the remote-assigned identifier. -/
def createOutEx : CreateTransitGatewayRouteTableOutput := ⟨rtEx⟩

/-- A create environment where the call, the wait and the delegated read
all succeed. -/
def createEnvOk : CreateEnv :=
  ⟨clientFound, fun _ => Except.ok createOutEx, fun _ => none⟩

/-- A create environment whose remote creation call fails. -/
def createEnvErr : CreateEnv :=
  ⟨clientFound, fun _ => Except.error awsErrOther, fun _ => none⟩

/-- A create environment whose poll-until-ready wait times out. -/
def createEnvWaitFail : CreateEnv :=
  ⟨clientFound, fun _ => Except.ok createOutEx, fun _ => some "timeout while waiting for state"⟩

/-- An update environment whose tag-update call succeeds. -/
def updateEnvOk : UpdateEnv := ⟨fun _ _ _ => none⟩

/-- An update environment whose tag-update call fails. -/
def updateEnvErr : UpdateEnv := ⟨fun _ _ _ => some awsErrOther⟩

/-- A delete environment whose deletion call reports not-found. -/
def deleteEnvNotFound : DeleteEnv := ⟨fun _ => some awsErrNotFound, fun _ => none⟩

/-- A delete environment where the call and the wait succeed. -/
def deleteEnvOk : DeleteEnv := ⟨fun _ => none, fun _ => none⟩

/-- A delete environment whose deletion call fails with another error. -/
def deleteEnvErr : DeleteEnv := ⟨fun _ => some awsErrOther, fun _ => none⟩

/-- A delete environment whose poll-until-absent wait fails. -/
def deleteEnvWaitFail : DeleteEnv := ⟨fun _ => none, fun _ => some "timeout while waiting for deletion"⟩

/-! Helper lemmas shared by the claim theorems. -/

/-- The empty needle is contained in every character list. -/
theorem charsContain_nil (l : List Char) : charsContain [] l = true := by
  cases l <;> simp [charsContain, charsStartWith, List.isEmpty]

/-- Every string contains the empty string. -/
theorem strContains_empty (s : String) : strContains s "" = true := by
  simpa [strContains] using charsContain_nil s.data

/-- `isAWSErr` with an empty message filter holds exactly on the code. -/
theorem isAWSErr_empty_message (e : AwsError) (code : String) :
    isAWSErr e code "" = (e.code == code) := by
  simp [isAWSErr, strContains_empty e.message]

/-- Read either preserves the identifier or clears it to the empty
string; it never writes any other value. -/
theorem read_id_cases (meta : AWSClient) (d : ResourceData) :
    (resourceAwsEc2TransitGatewayRouteTableRead meta d).d.id = d.id
      ∨ (resourceAwsEc2TransitGatewayRouteTableRead meta d).d.id = "" := by
  cases hres : meta.describeTransitGatewayRouteTable d.id with
  | error e =>
    by_cases hnf : isAWSErr e "InvalidRouteTableID.NotFound" "" = true <;>
      simp [resourceAwsEc2TransitGatewayRouteTableRead, hres, hnf]
  | ok ort =>
    cases ort with
    | none => simp [resourceAwsEc2TransitGatewayRouteTableRead, hres]
    | some rt =>
      by_cases hst : (stringValue rt.state = ec2TransitGatewayRouteTableStateDeleting
          ∨ stringValue rt.state = ec2TransitGatewayRouteTableStateDeleted) <;>
        simp [resourceAwsEc2TransitGatewayRouteTableRead, hres, hst]

/-- C1: Read's outcome is decided by the describe result: a not-found
error code, a nil descriptor, and a deleting/deleted-state descriptor each
clear the identifier and return success; any other remote error is surfaced
as a wrapped error and the snapshot (identifier included) is untouched. -/
theorem read_outcome_decided_by_describe (meta : AWSClient) (d : ResourceData) :
    (∀ e, meta.describeTransitGatewayRouteTable d.id = Except.error e →
        isAWSErr e "InvalidRouteTableID.NotFound" "" = true →
        (resourceAwsEc2TransitGatewayRouteTableRead meta d).d.id = ""
          ∧ (resourceAwsEc2TransitGatewayRouteTableRead meta d).err = none)
  ∧ (meta.describeTransitGatewayRouteTable d.id = Except.ok none →
        (resourceAwsEc2TransitGatewayRouteTableRead meta d).d.id = ""
          ∧ (resourceAwsEc2TransitGatewayRouteTableRead meta d).err = none)
  ∧ (∀ rt, meta.describeTransitGatewayRouteTable d.id = Except.ok (some rt) →
        (stringValue rt.state = ec2TransitGatewayRouteTableStateDeleting
          ∨ stringValue rt.state = ec2TransitGatewayRouteTableStateDeleted) →
        (resourceAwsEc2TransitGatewayRouteTableRead meta d).d.id = ""
          ∧ (resourceAwsEc2TransitGatewayRouteTableRead meta d).err = none)
  ∧ (∀ e, meta.describeTransitGatewayRouteTable d.id = Except.error e →
        isAWSErr e "InvalidRouteTableID.NotFound" "" = false →
        (resourceAwsEc2TransitGatewayRouteTableRead meta d).err
            = some ("error reading EC2 Transit Gateway Route Table: " ++ e.message)
          ∧ (resourceAwsEc2TransitGatewayRouteTableRead meta d).d = d) := by
  refine ⟨?_, ?_, ?_, ?_⟩
  · intro e he hnf
    simp [resourceAwsEc2TransitGatewayRouteTableRead, he, hnf]
  · intro h
    simp [resourceAwsEc2TransitGatewayRouteTableRead, h]
  · intro rt hrt hst
    simp [resourceAwsEc2TransitGatewayRouteTableRead, hrt, hst]
  · intro e he hnf
    simp [resourceAwsEc2TransitGatewayRouteTableRead, he, hnf]

/-- Witness for C1: a not-found describe clears the identifier with no
error; an internal error is surfaced wrapped with the snapshot intact. -/
theorem read_outcome_decided_by_describe_witness :
    ((resourceAwsEc2TransitGatewayRouteTableRead clientNotFound dEx).d.id = ""
      ∧ (resourceAwsEc2TransitGatewayRouteTableRead clientNotFound dEx).err = none)
  ∧ ((resourceAwsEc2TransitGatewayRouteTableRead clientErr dEx).err
        = some ("error reading EC2 Transit Gateway Route Table: " ++ awsErrOther.message)
      ∧ (resourceAwsEc2TransitGatewayRouteTableRead clientErr dEx).d = dEx) :=
  ⟨(read_outcome_decided_by_describe clientNotFound dEx).1 awsErrNotFound rfl (by decide),
   (read_outcome_decided_by_describe clientErr dEx).2.2.2 awsErrOther rfl (by decide)⟩

/-- C2: Delete is idempotent: when the remote deletion call fails with the
not-found error code, Delete returns success, so a second Delete against an
already-absent resource never errors. -/
theorem delete_idempotent_on_not_found (env : DeleteEnv) (d : ResourceData)
    (e : AwsError)
    (hcall : env.deleteTransitGatewayRouteTable d.id = some e)
    (hnf : e.code = "InvalidRouteTableID.NotFound") :
    (resourceAwsEc2TransitGatewayRouteTableDelete env d).err = none := by
  have h : isAWSErr e "InvalidRouteTableID.NotFound" "" = true := by
    simp [isAWSErr_empty_message, hnf]
  simp [resourceAwsEc2TransitGatewayRouteTableDelete, hcall, h]

/-- Witness for C2: deleting against an environment that reports the
resource already absent returns success. -/
theorem delete_idempotent_on_not_found_witness :
    (resourceAwsEc2TransitGatewayRouteTableDelete deleteEnvNotFound dEx).err = none :=
  delete_idempotent_on_not_found deleteEnvNotFound dEx awsErrNotFound rfl rfl

/-- C3: when the remote creation call fails, Create returns a wrapped
error, the snapshot is untouched, and in particular an empty identifier
stays empty (the identifier setter is never reached). -/
theorem create_remote_error_records_no_id (env : CreateEnv) (d : ResourceData)
    (e : AwsError)
    (hc : env.createTransitGatewayRouteTable
        ⟨d.transit_gateway_id, ec2TagSpecificationsFromMap d.tags⟩ = Except.error e) :
    (resourceAwsEc2TransitGatewayRouteTableCreate env d).err
        = some ("error creating EC2 Transit Gateway Route Table: " ++ e.message)
      ∧ (resourceAwsEc2TransitGatewayRouteTableCreate env d).d = d
      ∧ (d.id = "" → (resourceAwsEc2TransitGatewayRouteTableCreate env d).d.id = "") := by
  refine ⟨?_, ?_, ?_⟩ <;>
    simp [resourceAwsEc2TransitGatewayRouteTableCreate, hc]

/-- Witness for C3: a failing creation call against the pre-creation
snapshot leaves the identifier empty and returns the wrapped error. -/
theorem create_remote_error_records_no_id_witness :
    (resourceAwsEc2TransitGatewayRouteTableCreate createEnvErr dEmpty).err
        = some ("error creating EC2 Transit Gateway Route Table: " ++ awsErrOther.message)
      ∧ (resourceAwsEc2TransitGatewayRouteTableCreate createEnvErr dEmpty).d = dEmpty
      ∧ (dEmpty.id = "" →
          (resourceAwsEc2TransitGatewayRouteTableCreate createEnvErr dEmpty).d.id = "") :=
  create_remote_error_records_no_id createEnvErr dEmpty awsErrOther rfl

/-- C4: when the remote creation call succeeds but the poll-until-ready
wait fails, Create returns the wrapped wait error while the identifier
captured from the creation response remains recorded. -/
theorem create_wait_failure_keeps_recorded_id (env : CreateEnv) (d : ResourceData)
    (out : CreateTransitGatewayRouteTableOutput) (w : String)
    (hc : env.createTransitGatewayRouteTable
        ⟨d.transit_gateway_id, ec2TagSpecificationsFromMap d.tags⟩ = Except.ok out)
    (hw : env.waitForCreation
        (stringValue out.transitGatewayRouteTable.transitGatewayRouteTableId) = some w) :
    (resourceAwsEc2TransitGatewayRouteTableCreate env d).err
        = some ("error waiting for EC2 Transit Gateway Route Table ("
            ++ stringValue out.transitGatewayRouteTable.transitGatewayRouteTableId
            ++ ") availability: " ++ w)
      ∧ (resourceAwsEc2TransitGatewayRouteTableCreate env d).d.id
          = stringValue out.transitGatewayRouteTable.transitGatewayRouteTableId := by
  refine ⟨?_, ?_⟩ <;>
    simp [resourceAwsEc2TransitGatewayRouteTableCreate, hc, hw]

/-- Witness for C4: a timed-out wait surfaces the wrapped error and the
remote-assigned identifier stays in the snapshot. -/
theorem create_wait_failure_keeps_recorded_id_witness :
    (resourceAwsEc2TransitGatewayRouteTableCreate createEnvWaitFail dEmpty).err
        = some ("error waiting for EC2 Transit Gateway Route Table ("
            ++ stringValue createOutEx.transitGatewayRouteTable.transitGatewayRouteTableId
            ++ ") availability: " ++ "timeout while waiting for state")
      ∧ (resourceAwsEc2TransitGatewayRouteTableCreate createEnvWaitFail dEmpty).d.id
          = stringValue createOutEx.transitGatewayRouteTable.transitGatewayRouteTableId :=
  create_wait_failure_keeps_recorded_id createEnvWaitFail dEmpty createOutEx
    "timeout while waiting for state" rfl rfl

/-- C5: when the tags attribute did not change between the old and new
snapshots, Update issues no remote call at all and returns success. -/
theorem update_no_tag_change_no_remote_call (env : UpdateEnv) (d : ResourceData)
    (h : d.tagsOld = d.tags) :
    (resourceAwsEc2TransitGatewayRouteTableUpdate env d).calls = []
      ∧ (resourceAwsEc2TransitGatewayRouteTableUpdate env d).err = none := by
  refine ⟨?_, ?_⟩ <;> simp [resourceAwsEc2TransitGatewayRouteTableUpdate, h]

/-- Witness for C5: with identical old and new tag snapshots, Update makes
no remote call even against an environment whose tag-update call would
fail. -/
theorem update_no_tag_change_no_remote_call_witness :
    (resourceAwsEc2TransitGatewayRouteTableUpdate updateEnvErr dEx).calls = []
      ∧ (resourceAwsEc2TransitGatewayRouteTableUpdate updateEnvErr dEx).err = none :=
  update_no_tag_change_no_remote_call updateEnvErr dEx rfl

/-- C6: when the describe call finds a non-nil descriptor not in the
deleting/deleted state, Read succeeds, sets the two boolean flags from the
descriptor, the tag mapping filtered of provider-reserved and
user-ignored keys, the transit gateway reference from the descriptor, and
the partition/service/region/account locator string ending in
`transit-gateway-route-table/<identifier>`. -/
theorem read_found_populates_fields (meta : AWSClient) (d : ResourceData)
    (rt : TransitGatewayRouteTable)
    (hdesc : meta.describeTransitGatewayRouteTable d.id = Except.ok (some rt))
    (hs1 : stringValue rt.state ≠ ec2TransitGatewayRouteTableStateDeleting)
    (hs2 : stringValue rt.state ≠ ec2TransitGatewayRouteTableStateDeleted) :
    (resourceAwsEc2TransitGatewayRouteTableRead meta d).err = none
  ∧ (resourceAwsEc2TransitGatewayRouteTableRead meta d).d.default_association_route_table
      = boolValue rt.defaultAssociationRouteTable
  ∧ (resourceAwsEc2TransitGatewayRouteTableRead meta d).d.default_propagation_route_table
      = boolValue rt.defaultPropagationRouteTable
  ∧ (resourceAwsEc2TransitGatewayRouteTableRead meta d).d.tags
      = ec2TagsIgnoreAwsIgnoreConfigMap meta.ignoreTagsConfig rt.tags
  ∧ (resourceAwsEc2TransitGatewayRouteTableRead meta d).d.transit_gateway_id
      = stringValue rt.transitGatewayId
  ∧ (resourceAwsEc2TransitGatewayRouteTableRead meta d).d.arn
      = "arn:" ++ meta.partition ++ ":" ++ ec2ServiceName ++ ":" ++ meta.region ++ ":"
          ++ meta.accountid ++ ":" ++ ("transit-gateway-route-table/" ++ d.id) := by
  refine ⟨?_, ?_, ?_, ?_, ?_, ?_⟩ <;>
    simp [resourceAwsEc2TransitGatewayRouteTableRead, hdesc, hs1, hs2, arnToString]

/-- Witness for C6: reading the available descriptor populates every
computed field. -/
theorem read_found_populates_fields_witness :
    (resourceAwsEc2TransitGatewayRouteTableRead clientFound dEx).err = none
  ∧ (resourceAwsEc2TransitGatewayRouteTableRead clientFound dEx).d.default_association_route_table
      = boolValue rtEx.defaultAssociationRouteTable
  ∧ (resourceAwsEc2TransitGatewayRouteTableRead clientFound dEx).d.default_propagation_route_table
      = boolValue rtEx.defaultPropagationRouteTable
  ∧ (resourceAwsEc2TransitGatewayRouteTableRead clientFound dEx).d.tags
      = ec2TagsIgnoreAwsIgnoreConfigMap clientFound.ignoreTagsConfig rtEx.tags
  ∧ (resourceAwsEc2TransitGatewayRouteTableRead clientFound dEx).d.transit_gateway_id
      = stringValue rtEx.transitGatewayId
  ∧ (resourceAwsEc2TransitGatewayRouteTableRead clientFound dEx).d.arn
      = "arn:" ++ clientFound.partition ++ ":" ++ ec2ServiceName ++ ":"
          ++ clientFound.region ++ ":" ++ clientFound.accountid ++ ":"
          ++ ("transit-gateway-route-table/" ++ dEx.id) :=
  read_found_populates_fields clientFound dEx rtEx rfl (by decide) (by decide)

/-- Counterexample to C7 as stated: Read on a snapshot holding the
non-empty identifier "tgw-rtb-abc", against a remote that reports
not-found, overwrites that identifier with the different value "" while
returning success. -/
theorem id_never_changes_counterexample :
    dEx.id ≠ ""
  ∧ (resourceAwsEc2TransitGatewayRouteTableRead clientNotFound dEx).d.id ≠ dEx.id
  ∧ (resourceAwsEc2TransitGatewayRouteTableRead clientNotFound dEx).err = none := by
  refine ⟨by decide, ?_, ?_⟩ <;> decide

/-- C7 amended: Update and Delete never modify the identifier; Read either
preserves it or clears it to the empty string; Create preserves it when
the creation call fails and otherwise stores exactly the remote-assigned
identifier (possibly cleared afterwards by the delegated Read).  So the
identifier never takes any value other than the framework-supplied one,
the remote-assigned one, or empty. -/
theorem id_overwritten_only_to_record_or_clear
    (cenv : CreateEnv) (uenv : UpdateEnv) (denv : DeleteEnv)
    (meta : AWSClient) (d : ResourceData) :
    (resourceAwsEc2TransitGatewayRouteTableUpdate uenv d).d.id = d.id
  ∧ (resourceAwsEc2TransitGatewayRouteTableDelete denv d).d.id = d.id
  ∧ ((resourceAwsEc2TransitGatewayRouteTableRead meta d).d.id = d.id
      ∨ (resourceAwsEc2TransitGatewayRouteTableRead meta d).d.id = "")
  ∧ (∀ e, cenv.createTransitGatewayRouteTable
        ⟨d.transit_gateway_id, ec2TagSpecificationsFromMap d.tags⟩ = Except.error e →
      (resourceAwsEc2TransitGatewayRouteTableCreate cenv d).d.id = d.id)
  ∧ (∀ out, cenv.createTransitGatewayRouteTable
        ⟨d.transit_gateway_id, ec2TagSpecificationsFromMap d.tags⟩ = Except.ok out →
      ((resourceAwsEc2TransitGatewayRouteTableCreate cenv d).d.id
          = stringValue out.transitGatewayRouteTable.transitGatewayRouteTableId
        ∨ (resourceAwsEc2TransitGatewayRouteTableCreate cenv d).d.id = "")) := by
  refine ⟨?_, ?_, read_id_cases meta d, ?_, ?_⟩
  · by_cases h : d.tagsOld = d.tags
    · simp [resourceAwsEc2TransitGatewayRouteTableUpdate, h]
    · cases henv : uenv.ec2UpdateTags d.id d.tagsOld d.tags <;>
        simp [resourceAwsEc2TransitGatewayRouteTableUpdate, h, henv]
  · cases hdel : denv.deleteTransitGatewayRouteTable d.id with
    | none =>
      cases hw : denv.waitForDeletion d.id <;>
        simp [resourceAwsEc2TransitGatewayRouteTableDelete, hdel, hw]
    | some e =>
      by_cases hnf : isAWSErr e "InvalidRouteTableID.NotFound" "" = true <;>
        simp [resourceAwsEc2TransitGatewayRouteTableDelete, hdel, hnf]
  · intro e hc
    simp [resourceAwsEc2TransitGatewayRouteTableCreate, hc]
  · intro out hc
    cases hw : cenv.waitForCreation
        (stringValue out.transitGatewayRouteTable.transitGatewayRouteTableId) with
    | some w =>
      left
      simp [resourceAwsEc2TransitGatewayRouteTableCreate, hc, hw]
    | none =>
      have h := read_id_cases cenv.client
        { d with id := stringValue out.transitGatewayRouteTable.transitGatewayRouteTableId }
      simp only [resourceAwsEc2TransitGatewayRouteTableCreate, hc, hw]
      simpa using h

/-- Witness for C7 amended: Update leaves the identifier of the recorded
snapshot untouched, and a successful Create on the pre-creation snapshot
stores the remote-assigned identifier. -/
theorem id_overwritten_only_to_record_or_clear_witness :
    (resourceAwsEc2TransitGatewayRouteTableUpdate updateEnvOk dEx).d.id = dEx.id
  ∧ ((resourceAwsEc2TransitGatewayRouteTableCreate createEnvOk dEmpty).d.id
        = stringValue createOutEx.transitGatewayRouteTable.transitGatewayRouteTableId
      ∨ (resourceAwsEc2TransitGatewayRouteTableCreate createEnvOk dEmpty).d.id = "") :=
  ⟨(id_overwritten_only_to_record_or_clear createEnvOk updateEnvOk deleteEnvOk
      clientFound dEx).1,
   (id_overwritten_only_to_record_or_clear createEnvOk updateEnvOk deleteEnvOk
      clientFound dEmpty).2.2.2.2 createOutEx rfl⟩

/-- C8: with a non-empty owning reference, when the creation call assigns
a non-empty identifier, the wait succeeds and the delegated describe finds
the descriptor available, Create succeeds, its call trace includes the
delegated describe, and the final snapshot holds the remote-assigned
identifier and the transit gateway reference the descriptor reports. -/
theorem create_then_read_returns_assigned_id (env : CreateEnv) (d : ResourceData)
    (out : CreateTransitGatewayRouteTableOutput) (rt : TransitGatewayRouteTable)
    (href : d.transit_gateway_id ≠ "")
    (hc : env.createTransitGatewayRouteTable
        ⟨d.transit_gateway_id, ec2TagSpecificationsFromMap d.tags⟩ = Except.ok out)
    (hid : stringValue out.transitGatewayRouteTable.transitGatewayRouteTableId ≠ "")
    (hw : env.waitForCreation
        (stringValue out.transitGatewayRouteTable.transitGatewayRouteTableId) = none)
    (hdesc : env.client.describeTransitGatewayRouteTable
        (stringValue out.transitGatewayRouteTable.transitGatewayRouteTableId)
        = Except.ok (some rt))
    (hs1 : stringValue rt.state ≠ ec2TransitGatewayRouteTableStateDeleting)
    (hs2 : stringValue rt.state ≠ ec2TransitGatewayRouteTableStateDeleted) :
    (resourceAwsEc2TransitGatewayRouteTableCreate env d).err = none
  ∧ RemoteCall.describeTGWRouteTable
        (stringValue out.transitGatewayRouteTable.transitGatewayRouteTableId)
      ∈ (resourceAwsEc2TransitGatewayRouteTableCreate env d).calls
  ∧ (resourceAwsEc2TransitGatewayRouteTableCreate env d).d.id
      = stringValue out.transitGatewayRouteTable.transitGatewayRouteTableId
  ∧ (resourceAwsEc2TransitGatewayRouteTableCreate env d).d.id ≠ ""
  ∧ (resourceAwsEc2TransitGatewayRouteTableCreate env d).d.transit_gateway_id
      = stringValue rt.transitGatewayId := by
  refine ⟨?_, ?_, ?_, ?_, ?_⟩ <;>
    simp [resourceAwsEc2TransitGatewayRouteTableCreate,
      resourceAwsEc2TransitGatewayRouteTableRead, hc, hw, hdesc, hs1, hs2, hid]

/-- Witness for C8: the fully successful environment yields the assigned
identifier "tgw-rtb-abc" and the reported reference "tgw-123". -/
theorem create_then_read_returns_assigned_id_witness :
    (resourceAwsEc2TransitGatewayRouteTableCreate createEnvOk dEmpty).err = none
  ∧ RemoteCall.describeTGWRouteTable
        (stringValue createOutEx.transitGatewayRouteTable.transitGatewayRouteTableId)
      ∈ (resourceAwsEc2TransitGatewayRouteTableCreate createEnvOk dEmpty).calls
  ∧ (resourceAwsEc2TransitGatewayRouteTableCreate createEnvOk dEmpty).d.id
      = stringValue createOutEx.transitGatewayRouteTable.transitGatewayRouteTableId
  ∧ (resourceAwsEc2TransitGatewayRouteTableCreate createEnvOk dEmpty).d.id ≠ ""
  ∧ (resourceAwsEc2TransitGatewayRouteTableCreate createEnvOk dEmpty).d.transit_gateway_id
      = stringValue rtEx.transitGatewayId :=
  create_then_read_returns_assigned_id createEnvOk dEmpty createOutEx rtEx
    (by decide) rfl (by decide) rfl rfl (by decide) (by decide)

/-- C9: Delete errs exactly when the deletion call fails with an error
other than not-found or the call succeeds and the poll-until-absent wait
fails; each error is the wrapped operation-context message, and on the
successful-call path the wait is issued right after the deletion call. -/
theorem delete_error_characterisation (env : DeleteEnv) (d : ResourceData) :
    ((resourceAwsEc2TransitGatewayRouteTableDelete env d).err ≠ none ↔
      ((∃ e, env.deleteTransitGatewayRouteTable d.id = some e
          ∧ isAWSErr e "InvalidRouteTableID.NotFound" "" = false)
        ∨ (env.deleteTransitGatewayRouteTable d.id = none
            ∧ env.waitForDeletion d.id ≠ none)))
  ∧ (env.deleteTransitGatewayRouteTable d.id = none →
      (resourceAwsEc2TransitGatewayRouteTableDelete env d).calls
        = [RemoteCall.deleteTGWRouteTable d.id, RemoteCall.waitDeletion d.id])
  ∧ (∀ e, env.deleteTransitGatewayRouteTable d.id = some e →
      isAWSErr e "InvalidRouteTableID.NotFound" "" = false →
      (resourceAwsEc2TransitGatewayRouteTableDelete env d).err
        = some ("error deleting EC2 Transit Gateway Route Table: " ++ e.message))
  ∧ (∀ w, env.deleteTransitGatewayRouteTable d.id = none →
      env.waitForDeletion d.id = some w →
      (resourceAwsEc2TransitGatewayRouteTableDelete env d).err
        = some ("error waiting for EC2 Transit Gateway Route Table (" ++ d.id
            ++ ") deletion: " ++ w)) := by
  refine ⟨?_, ?_, ?_, ?_⟩
  · cases hdel : env.deleteTransitGatewayRouteTable d.id with
    | some e =>
      by_cases hnf : isAWSErr e "InvalidRouteTableID.NotFound" "" = true <;>
        simp [resourceAwsEc2TransitGatewayRouteTableDelete, hdel, hnf]
    | none =>
      cases hw : env.waitForDeletion d.id <;>
        simp [resourceAwsEc2TransitGatewayRouteTableDelete, hdel, hw]
  · intro hdel
    cases hw : env.waitForDeletion d.id <;>
      simp [resourceAwsEc2TransitGatewayRouteTableDelete, hdel, hw]
  · intro e hdel hnf
    simp [resourceAwsEc2TransitGatewayRouteTableDelete, hdel, hnf]
  · intro w hdel hw
    simp [resourceAwsEc2TransitGatewayRouteTableDelete, hdel, hw]

/-- Witness for C9: the wait runs after a successful deletion call, a
non-not-found call error is surfaced wrapped, and a wait failure is
surfaced wrapped. -/
theorem delete_error_characterisation_witness :
    (resourceAwsEc2TransitGatewayRouteTableDelete deleteEnvOk dEx).calls
        = [RemoteCall.deleteTGWRouteTable dEx.id, RemoteCall.waitDeletion dEx.id]
  ∧ (resourceAwsEc2TransitGatewayRouteTableDelete deleteEnvErr dEx).err
        = some ("error deleting EC2 Transit Gateway Route Table: " ++ awsErrOther.message)
  ∧ (resourceAwsEc2TransitGatewayRouteTableDelete deleteEnvWaitFail dEx).err
        = some ("error waiting for EC2 Transit Gateway Route Table (" ++ dEx.id
            ++ ") deletion: " ++ "timeout while waiting for deletion") :=
  ⟨(delete_error_characterisation deleteEnvOk dEx).2.1 rfl,
   (delete_error_characterisation deleteEnvErr dEx).2.2.1 awsErrOther rfl (by decide),
   (delete_error_characterisation deleteEnvWaitFail dEx).2.2.2
     "timeout while waiting for deletion" rfl rfl⟩

/-- C10: Update never writes the snapshot: on every path, success or
error, the returned snapshot is exactly the framework-supplied one, so the
identifier, both boolean flags, the locator, the owning reference and the
tags attribute are unchanged, and a failed tag-update call leaves the
state intact. -/
theorem update_never_writes_state (env : UpdateEnv) (d : ResourceData) :
    (resourceAwsEc2TransitGatewayRouteTableUpdate env d).d = d := by
  by_cases h : d.tagsOld = d.tags
  · simp [resourceAwsEc2TransitGatewayRouteTableUpdate, h]
  · cases henv : env.ec2UpdateTags d.id d.tagsOld d.tags <;>
      simp [resourceAwsEc2TransitGatewayRouteTableUpdate, h, henv]

end TGWRouteTable
